import Mathlib

/-!
Shallow embedding of the Supabase-integration backend (src/index.js, the
variant with duplicate-detection signup and admin routes, together with the
middleware of src/auth.js and the Prisma schema).

Modelling conventions:
* The identity provider (Supabase client) and the relational store (Prisma
  client) are opaque collaborators.  The provider is a record of pure
  functions whose result shapes follow exactly the destructuring patterns at
  the call sites.  The store is a value holding the User, Post and Comment
  tables of the Prisma schema; generated ids come from a counter.
* Request-body fields are Option String; a JS-falsy field is modelled as
  none or some of the empty string.
* Every route returns the HTTP response, the resulting store, and a trace of
  external calls (Eff).  The trace makes absence of side effects provable.
* A promise rejection of the provider during token verification, and the
  TypeError thrown when destructuring a null response, are both modelled by
  the Except.error branch of getUser; the middleware catch turns them into
  a 401.  Inside route handlers, dereferencing a null user (possible when
  the provider reports neither an error nor a user) throws a TypeError that
  the route catch turns into a 500; the precise message text of such a
  TypeError is not modelled and is represented by a placeholder string.
* prisma.post.create and prisma.comment.create enforce the foreign keys of
  the schema (authorId, postId), and prisma.user.create enforces the id
  primary key and the unique email column: a violated constraint makes the
  client throw, which the route catch turns into a 500.
-/

namespace SupabaseApp

/-- Identity-provider account object (the fields the code reads). -/
structure AuthUser where
  id : String
  email : String
deriving DecidableEq, Repr

/-- Shape of supabase.auth.getUser: data.user and error. -/
structure GetUserResp where
  user : Option AuthUser
  error : Option String
deriving DecidableEq, Repr

/-- Shape the code assumes for admin.listUsers with an email filter:
data used as an array (length in signup, index 0 in the admin route). -/
structure ListResp where
  data : Option (List AuthUser)
  error : Option String
deriving DecidableEq, Repr

/-- Shape of signUp / signInWithPassword: data.user, data.session, error. -/
structure SignResp where
  user : Option AuthUser
  session : Option String
  error : Option String
deriving DecidableEq, Repr

/-- The opaque identity-provider client.  getUser returns Except: the error
branch models a thrown/rejected call (caught by the middleware catch), the
ok branch the resolved data/error object. -/
structure Provider where
  getUser : String → Except String GetUserResp
  adminListUsersByEmail : String → ListResp
  adminListUsers : ListResp
  signUp : String → String → SignResp
  signInWithPassword : String → String → SignResp

/-- Local User row (Prisma model User). -/
structure User where
  id : String
  email : String
deriving DecidableEq, Repr

/-- Local Post row (Prisma model Post; timestamps not needed by any claim). -/
structure Post where
  id : String
  title : String
  content : String
  authorId : String
deriving DecidableEq, Repr

/-- Local Comment row (Prisma model Comment). -/
structure Comment where
  id : String
  content : String
  authorId : String
  postId : String
deriving DecidableEq, Repr

/-- Comment as returned by the comment route: created row joined with the
author email and the post title via the include clause. -/
structure CommentJoined where
  id : String
  content : String
  authorId : String
  postId : String
  authorEmail : String
  postTitle : String
deriving DecidableEq, Repr

/-- Local User joined with posts and comments (include clause of the
admin user-by-email route). -/
structure UserWithRel where
  user : User
  posts : List Post
  comments : List Comment
deriving DecidableEq, Repr

/-- Derived activity counts of the admin user-by-email route. -/
structure Activity where
  totalPosts : Nat
  totalComments : Nat
deriving DecidableEq, Repr

/-- The relational store: the three tables plus the id generator counter. -/
structure Store where
  users : List User
  posts : List Post
  comments : List Comment
  nextId : Nat
deriving DecidableEq, Repr

/-- Trace entries for calls made to the provider and the store. -/
inductive Eff where
  | getUser (token : String)
  | adminListUsersByEmail (email : String)
  | adminListUsers
  | providerSignUp (email : String)
  | providerSignIn (email : String)
  | findUserById (uid : String)
  | findUserByEmail (email : String)
  | findManyUsers
  | createUser (uid email : String)
  | findPost (pid : String)
  | createPost (title content authorId : String)
  | createComment (content authorId postId : String)
deriving DecidableEq, Repr

/-- JSON bodies the routes produce. -/
inductive Body where
  | authErr (msg : String)
  | fail (msg : String)
  | signupOk (user : User) (auth : AuthUser)
  | signinOk (msg : String) (session : Option String) (user : User) (auth : AuthUser)
  | postOk (post : Post)
  | commentOk (comment : CommentJoined)
  | adminUsersOk (supabaseUsers : List AuthUser) (prismaUsers : List User)
      (totalUsers : Nat) (userEmails : List String)
  | adminUserOk (supabaseUser : Option AuthUser) (prismaUser : Option UserWithRel)
      (userActivity : Option Activity)
deriving DecidableEq, Repr

/-- HTTP response: status code plus JSON body. -/
structure Resp where
  status : Nat
  body : Body
deriving DecidableEq, Repr

/-- Placeholder for the message of a TypeError thrown when a null object is
dereferenced; the exact text is not modelled and no theorem depends on it. -/
def typeErrorMsg : String := "TypeError"

/-- Message of a thrown foreign-key constraint violation of the store. -/
def fkViolationMsg : String := "Foreign key constraint violated"

/-- Message of a thrown unique or primary-key constraint violation of the
store. -/
def uniqueViolationMsg : String := "Unique constraint failed"

/-- Duplicate-user message of the signup route. -/
def dupMsg : String := "User already exists with this email. Please login instead."

/-- Model of the JS expression header.split of a single space character:
splits on every space, keeping empty segments. -/
def splitSpaces (s : String) : List String :=
  (s.toList.splitOn ' ').map (fun cs => String.mk cs)

/-- Outcome of the middleware: short-circuit response, or proceed to the
next handler with the user value attached to the request (which is the
provider-returned user and can be null). -/
inductive AuthOutcome where
  | reject (status : Nat) (msg : String)
  | proceed (user : Option AuthUser)
deriving DecidableEq, Repr

/-- The authenticateUser middleware of src/auth.js / src/index.js. -/
def authenticateUser (p : Provider) (authHeader : Option String) :
    AuthOutcome × List Eff :=
  match authHeader with
  | none => (.reject 401 "No authorization header", [])
  | some h =>
    let token := (splitSpaces h).getD 1 ""
    if token = "" then (.reject 401 "No token provided", [])
    else
      match p.getUser token with
      | .error _ => (.reject 401 "Authentication failed", [.getUser token])
      | .ok r =>
        match r.error with
        | some _ => (.reject 401 "Invalid token", [.getUser token])
        | none => (.proceed r.user, [.getUser token])

/-- prisma.user.findUnique on the unique email column. -/
def Store.findUserByEmail (s : Store) (email : String) : Option User :=
  s.users.find? (fun u => u.email == email)

/-- prisma.user.findUnique on the id primary key. -/
def Store.findUserById (s : Store) (uid : String) : Option User :=
  s.users.find? (fun u => u.id == uid)

/-- prisma.post.findUnique on the id primary key. -/
def Store.findPostById (s : Store) (pid : String) : Option Post :=
  s.posts.find? (fun p => p.id == pid)

/-- prisma.user.create with an explicit id and email; the store enforces
the id primary key and the unique email column of the schema (violation
throws). -/
def Store.createUser (s : Store) (uid email : String) :
    Except String (User × Store) :=
  if s.users.any (fun u => u.id == uid || u.email == email) then
    .error uniqueViolationMsg
  else
    let u : User := ⟨uid, email⟩
    .ok (u, { s with users := s.users ++ [u] })

/-- prisma.post.create with a generated id; the authorId foreign key is
enforced by the store (violation throws). -/
def Store.createPost (s : Store) (title content authorId : String) :
    Except String (Post × Store) :=
  match s.users.find? (fun u => u.id == authorId) with
  | none => .error fkViolationMsg
  | some _ =>
    let po : Post := ⟨toString s.nextId, title, content, authorId⟩
    .ok (po, { s with posts := s.posts ++ [po], nextId := s.nextId + 1 })

/-- prisma.comment.create with a generated id and the include clause that
joins the author email and the post title; both foreign keys are enforced
by the store (violation throws). -/
def Store.createComment (s : Store) (content authorId postId : String) :
    Except String (CommentJoined × Store) :=
  match s.users.find? (fun u => u.id == authorId),
        s.posts.find? (fun p => p.id == postId) with
  | some au, some po =>
    let c : Comment := ⟨toString s.nextId, content, authorId, postId⟩
    .ok (⟨c.id, content, authorId, postId, au.email, po.title⟩,
      { s with comments := s.comments ++ [c], nextId := s.nextId + 1 })
  | _, _ => .error fkViolationMsg

/-- JS test existingUser and optional-chain length greater than zero. -/
def optLenPos : Option (List AuthUser) → Bool
  | some l => !l.isEmpty
  | none => false

/-- The POST signup route handler. -/
def signupRoute (p : Provider) (s : Store) (email password : String) :
    Resp × Store × List Eff :=
  let lr := p.adminListUsersByEmail email
  if optLenPos lr.data then
    (⟨400, .fail dupMsg⟩, s, [.adminListUsersByEmail email])
  else
    match s.findUserByEmail email with
    | some _ =>
      (⟨400, .fail dupMsg⟩, s, [.adminListUsersByEmail email, .findUserByEmail email])
    | none =>
      let sr := p.signUp email password
      let effs := [Eff.adminListUsersByEmail email, .findUserByEmail email,
        .providerSignUp email]
      match sr.error with
      | some e => (⟨500, .fail e⟩, s, effs)
      | none =>
        match sr.user with
        | none => (⟨500, .fail typeErrorMsg⟩, s, effs)
        | some au =>
          match s.createUser au.id email with
          | .error e => (⟨500, .fail e⟩, s, effs ++ [.createUser au.id email])
          | .ok (u, s2) =>
            (⟨200, .signupOk u au⟩, s2, effs ++ [.createUser au.id email])

/-- The POST signin route handler. -/
def signinRoute (p : Provider) (s : Store) (email password : String) :
    Resp × Store × List Eff :=
  let sr := p.signInWithPassword email password
  match sr.error with
  | some e => (⟨500, .fail e⟩, s, [.providerSignIn email])
  | none =>
    match sr.user with
    | none => (⟨500, .fail typeErrorMsg⟩, s, [.providerSignIn email])
    | some au =>
      let effs := [Eff.providerSignIn email, .findUserById au.id]
      match s.findUserById au.id with
      | some u =>
        (⟨200, .signinOk "User signed in successfully" sr.session u au⟩, s, effs)
      | none =>
        match s.createUser au.id email with
        | .error e => (⟨500, .fail e⟩, s, effs ++ [.createUser au.id email])
        | .ok (u, s2) =>
          (⟨200, .signinOk "User signed in successfully" sr.session u au⟩, s2,
            effs ++ [.createUser au.id email])

/-- Runs a protected route: the middleware either short-circuits with its
own response or the inner handler runs with the attached user value. -/
def protect (p : Provider) (s : Store) (authHeader : Option String)
    (handler : Option AuthUser → Resp × Store × List Eff) :
    Resp × Store × List Eff :=
  match authenticateUser p authHeader with
  | (.reject st msg, effs) => (⟨st, .authErr msg⟩, s, effs)
  | (.proceed u, effs) =>
    let (r, s2, effs2) := handler u
    (r, s2, effs ++ effs2)

/-- Body of the POST post route after the middleware. -/
def postHandler (s : Store) (user : Option AuthUser)
    (title content : Option String) : Resp × Store × List Eff :=
  match title, content with
  | some t, some c =>
    if t = "" ∨ c = "" then
      (⟨400, .fail "Title and content are required"⟩, s, [])
    else
      match user with
      | none => (⟨500, .fail typeErrorMsg⟩, s, [])
      | some u =>
        match s.createPost t c u.id with
        | .ok (po, s2) => (⟨200, .postOk po⟩, s2, [.createPost t c u.id])
        | .error e => (⟨500, .fail e⟩, s, [.createPost t c u.id])
  | _, _ => (⟨400, .fail "Title and content are required"⟩, s, [])

/-- The POST post route; the author argument models a client-supplied
author field of the request body, which the handler never reads. -/
def postRoute (p : Provider) (s : Store) (authHeader : Option String)
    (title content author : Option String) : Resp × Store × List Eff :=
  protect p s authHeader (fun u => postHandler s u title content)

/-- Body of the POST comment route after the middleware. -/
def commentHandler (s : Store) (user : Option AuthUser)
    (content postId : Option String) : Resp × Store × List Eff :=
  match content, postId with
  | some c, some pid =>
    if c = "" ∨ pid = "" then
      (⟨400, .fail "Content and postId are required"⟩, s, [])
    else
      match s.findPostById pid with
      | none => (⟨404, .fail "Post not found"⟩, s, [.findPost pid])
      | some _ =>
        match user with
        | none => (⟨500, .fail typeErrorMsg⟩, s, [.findPost pid])
        | some u =>
          match s.createComment c u.id pid with
          | .ok (cj, s2) =>
            (⟨200, .commentOk cj⟩, s2, [.findPost pid, .createComment c u.id pid])
          | .error e =>
            (⟨500, .fail e⟩, s, [.findPost pid, .createComment c u.id pid])
  | _, _ => (⟨400, .fail "Content and postId are required"⟩, s, [])

/-- The POST comment route. -/
def commentRoute (p : Provider) (s : Store) (authHeader : Option String)
    (content postId : Option String) : Resp × Store × List Eff :=
  protect p s authHeader (fun u => commentHandler s u content postId)

/-- The hardcoded admin allow-list. -/
def adminEmails : List String := ["rajakronaldo@gmail.com"]

/-- Body of the GET admin users route after the middleware. -/
def adminUsersHandler (p : Provider) (s : Store) (user : Option AuthUser) :
    Resp × Store × List Eff :=
  match user with
  | none => (⟨500, .fail typeErrorMsg⟩, s, [])
  | some u =>
    if !(adminEmails.contains u.email) then
      (⟨403, .fail "Unauthorized: Admin access required"⟩, s, [])
    else
      let lr := p.adminListUsers
      match lr.error with
      | some e => (⟨500, .fail e⟩, s, [.adminListUsers])
      | none =>
        let effs := [Eff.adminListUsers, .findManyUsers]
        match lr.data with
        | none => (⟨500, .fail typeErrorMsg⟩, s, effs)
        | some us =>
          (⟨200, .adminUsersOk us s.users us.length (us.map (fun a => a.email))⟩,
            s, effs)

/-- The GET admin users route. -/
def adminUsersRoute (p : Provider) (s : Store) (authHeader : Option String) :
    Resp × Store × List Eff :=
  protect p s authHeader (fun u => adminUsersHandler p s u)

/-- Body of the GET admin user-by-email route after the middleware. -/
def adminUserHandler (p : Provider) (s : Store) (user : Option AuthUser)
    (emailParam : String) : Resp × Store × List Eff :=
  match user with
  | none => (⟨500, .fail typeErrorMsg⟩, s, [])
  | some u =>
    if !(adminEmails.contains u.email) then
      (⟨403, .fail "Unauthorized: Admin access required"⟩, s, [])
    else
      let lr := p.adminListUsersByEmail emailParam
      match lr.error with
      | some e => (⟨500, .fail e⟩, s, [.adminListUsersByEmail emailParam])
      | none =>
        let prismaUser := (s.findUserByEmail emailParam).map (fun pu =>
          UserWithRel.mk pu (s.posts.filter (fun po => po.authorId == pu.id))
            (s.comments.filter (fun c => c.authorId == pu.id)))
        let effs := [Eff.adminListUsersByEmail emailParam, .findUserByEmail emailParam]
        match lr.data with
        | none => (⟨500, .fail typeErrorMsg⟩, s, effs)
        | some l =>
          (⟨200, .adminUserOk l.head? prismaUser
            (prismaUser.map (fun pu => ⟨pu.posts.length, pu.comments.length⟩))⟩,
            s, effs)

/-- The GET admin user-by-email route. -/
def adminUserRoute (p : Provider) (s : Store) (authHeader : Option String)
    (emailParam : String) : Resp × Store × List Eff :=
  protect p s authHeader (fun u => adminUserHandler p s u emailParam)

/-- Token verification by the provider fails: the call either throws or
resolves with a non-null error field. -/
def verifFails (p : Provider) (token : String) : Prop :=
  (∃ e, p.getUser token = .error e) ∨
    (∃ r e, p.getUser token = .ok r ∧ r.error = some e)

end SupabaseApp


namespace SupabaseApp

/-! Concrete fixtures used by the witnesses below. -/

/-- Sample provider account. -/
def uA : AuthUser := ⟨"u1", "a@x.com"⟩

/-- Provider that accepts every token as uA and every signup and signin. -/
def pOk : Provider :=
  { getUser := fun _ => .ok ⟨some uA, none⟩
    adminListUsersByEmail := fun _ => ⟨some [], none⟩
    adminListUsers := ⟨some [], none⟩
    signUp := fun e _ => ⟨some ⟨"u1", e⟩, none, none⟩
    signInWithPassword := fun e _ => ⟨some ⟨"u1", e⟩, some "sess", none⟩ }

/-- Provider that rejects every token and every credential. -/
def pRej : Provider :=
  { getUser := fun _ => .ok ⟨none, some "bad"⟩
    adminListUsersByEmail := fun _ => ⟨some [], none⟩
    adminListUsers := ⟨some [], none⟩
    signUp := fun _ _ => ⟨none, none, some "serr"⟩
    signInWithPassword := fun _ _ => ⟨none, none, some "Invalid login credentials"⟩ }

/-- Provider that authenticates every token as the allow-listed admin and
whose filtered admin listing matches uA. -/
def pAdm : Provider :=
  { getUser := fun _ => .ok ⟨some ⟨"adm", "rajakronaldo@gmail.com"⟩, none⟩
    adminListUsersByEmail := fun _ => ⟨some [uA], none⟩
    adminListUsers := ⟨some [uA], none⟩
    signUp := fun e _ => ⟨some ⟨"u1", e⟩, none, none⟩
    signInWithPassword := fun e _ => ⟨some ⟨"u1", e⟩, some "sess", none⟩ }

/-- Provider like pAdm whose filtered admin listing is empty. -/
def pAdmEmpty : Provider :=
  { getUser := fun _ => .ok ⟨some ⟨"adm", "rajakronaldo@gmail.com"⟩, none⟩
    adminListUsersByEmail := fun _ => ⟨some [], none⟩
    adminListUsers := ⟨some [], none⟩
    signUp := fun e _ => ⟨some ⟨"u1", e⟩, none, none⟩
    signInWithPassword := fun e _ => ⟨some ⟨"u1", e⟩, some "sess", none⟩ }

/-- Empty store. -/
def st0 : Store := ⟨[], [], [], 0⟩

/-- Store holding exactly the local row of uA. -/
def st1 : Store := ⟨[⟨"u1", "a@x.com"⟩], [], [], 0⟩

/-- Store holding the local row of uA and one post authored by uA. -/
def st2 : Store := ⟨[⟨"u1", "a@x.com"⟩], [⟨"p1", "T1", "C1", "u1"⟩], [], 5⟩

/-! Helper lemmas shared by the claim theorems. -/

/-- Middleware short-circuit propagates through protect. -/
theorem protect_reject {p : Provider} {ah : Option String} {st : Nat}
    {msg : String} {effs : List Eff} (s : Store)
    (f : Option AuthUser → Resp × Store × List Eff)
    (h : authenticateUser p ah = (.reject st msg, effs)) :
    protect p s ah f = (⟨st, .authErr msg⟩, s, effs) := by
  simp [protect, h]

/-- Middleware success runs the inner handler through protect. -/
theorem protect_proceed {p : Provider} {ah : Option String}
    {u : Option AuthUser} {effs : List Eff} (s : Store)
    (f : Option AuthUser → Resp × Store × List Eff)
    (h : authenticateUser p ah = (.proceed u, effs)) :
    protect p s ah f = ((f u).1, (f u).2.1, effs ++ (f u).2.2) := by
  simp [protect, h]

/-- Failed token verification makes the middleware reject with 401 after
exactly one provider call. -/
theorem authenticateUser_verif_fails {p : Provider} {h token : String}
    (ht : (splitSpaces h).getD 1 "" = token) (hne : token ≠ "")
    (hv : verifFails p token) :
    ∃ msg, authenticateUser p (some h) = (.reject 401 msg, [.getUser token]) := by
  simp only [authenticateUser]
  rw [ht, if_neg hne]
  rcases hv with ⟨e, he⟩ | ⟨r, e, hr, hre⟩
  · rw [he]
    exact ⟨_, rfl⟩
  · rw [hr]
    simp [hre]

/-- Successful token verification makes the middleware proceed with the
provider-returned user value after exactly one provider call. -/
theorem authenticateUser_proceed {p : Provider} {h token : String}
    {r : GetUserResp} (ht : (splitSpaces h).getD 1 "" = token)
    (hne : token ≠ "") (hr : p.getUser token = .ok r) (hre : r.error = none) :
    authenticateUser p (some h) = (.proceed r.user, [.getUser token]) := by
  simp only [authenticateUser]
  rw [ht, if_neg hne, hr]
  simp [hre]

/-- Helper: a successful user create appended exactly the new row. -/
theorem Store.createUser_ok {s : Store} {uid email : String} {u : User}
    {s2 : Store} (h : s.createUser uid email = .ok (u, s2)) :
    u = ⟨uid, email⟩ ∧
    s2 = { s with users := s.users ++ [⟨uid, email⟩] } := by
  simp only [Store.createUser] at h
  split at h
  · cases h
  · cases h
    exact ⟨rfl, rfl⟩

/-- Helper: with neither the id nor the email present in the table, the
user create succeeds and appends the row. -/
theorem Store.createUser_free {s : Store} {uid email : String}
    (hid : s.findUserById uid = none)
    (hem : s.findUserByEmail email = none) :
    s.createUser uid email =
      .ok (⟨uid, email⟩, { s with users := s.users ++ [⟨uid, email⟩] }) := by
  simp only [Store.findUserById, List.find?_eq_none] at hid
  simp only [Store.findUserByEmail, List.find?_eq_none] at hem
  have hcond : ¬ (s.users.any
      (fun u => u.id == uid || u.email == email) = true) := by
    intro hany
    rw [List.any_eq_true] at hany
    obtain ⟨x, hx, hpx⟩ := hany
    have hpx' : (x.id == uid) = true ∨ (x.email == email) = true := by
      simpa [Bool.or_eq_true] using hpx
    rcases hpx' with hb | hb
    · exact hid x hx hb
    · exact hem x hx hb
  simp only [Store.createUser]
  rw [if_neg hcond]

/-- Helper: a row already holding the email makes the user create fail on
the unique constraint. -/
theorem Store.createUser_email_taken {s : Store} {email : String}
    {u1 : User} (uid : String) (hem : s.findUserByEmail email = some u1) :
    s.createUser uid email = .error uniqueViolationMsg := by
  simp only [Store.findUserByEmail] at hem
  have hmem := List.mem_of_find?_eq_some hem
  have hbeq := List.find?_some hem
  have hcond : s.users.any
      (fun u => u.id == uid || u.email == email) = true := by
    rw [List.any_eq_true]
    exact ⟨u1, hmem, by rw [Bool.or_eq_true]; exact Or.inr hbeq⟩
  simp only [Store.createUser]
  rw [if_pos hcond]

end SupabaseApp

namespace SupabaseApp

/-- Claim C1: on every protected route (post creation, comment creation and
both admin routes), a request whose bearer token fails provider verification
receives status 401, the store is unchanged (in particular no Post row is
created by a POST to the post route), and the only external call made is the
single token-verification call, so the route handler body never executes. -/
theorem c1_failed_verification_always_401_no_side_effect
    (p : Provider) (s : Store) (h token : String)
    (ht : (splitSpaces h).getD 1 "" = token) (hne : token ≠ "")
    (hv : verifFails p token) :
    (∀ title content author,
      (postRoute p s (some h) title content author).1.status = 401 ∧
      (postRoute p s (some h) title content author).2.1 = s ∧
      (postRoute p s (some h) title content author).2.2 = [.getUser token]) ∧
    (∀ content postId,
      (commentRoute p s (some h) content postId).1.status = 401 ∧
      (commentRoute p s (some h) content postId).2.1 = s ∧
      (commentRoute p s (some h) content postId).2.2 = [.getUser token]) ∧
    ((adminUsersRoute p s (some h)).1.status = 401 ∧
      (adminUsersRoute p s (some h)).2.1 = s ∧
      (adminUsersRoute p s (some h)).2.2 = [.getUser token]) ∧
    (∀ emailParam,
      (adminUserRoute p s (some h) emailParam).1.status = 401 ∧
      (adminUserRoute p s (some h) emailParam).2.1 = s ∧
      (adminUserRoute p s (some h) emailParam).2.2 = [.getUser token]) := by
  obtain ⟨msg, hm⟩ := authenticateUser_verif_fails ht hne hv
  refine ⟨?_, ?_, ?_, ?_⟩ <;> intros <;>
    simp [postRoute, commentRoute, adminUsersRoute, adminUserRoute,
      protect_reject _ _ hm]

/-- Witness for C1: a provider that reports an error on every token; the
post route answers 401 and neither creates a post nor calls anything beyond
token verification. -/
theorem c1_witness :
    verifFails pRej "tok" ∧
    (postRoute pRej st0 (some "Bearer tok") (some "T") (some "C")
        (some "evil")).1.status = 401 ∧
    (postRoute pRej st0 (some "Bearer tok") (some "T") (some "C")
        (some "evil")).2.1 = st0 ∧
    (postRoute pRej st0 (some "Bearer tok") (some "T") (some "C")
        (some "evil")).2.2 = [.getUser "tok"] := by
  have hv : verifFails pRej "tok" := Or.inr ⟨⟨none, some "bad"⟩, "bad", rfl, rfl⟩
  exact ⟨hv, (c1_failed_verification_always_401_no_side_effect pRej st0
    "Bearer tok" "tok" (by decide) (by decide) hv).1 (some "T") (some "C")
    (some "evil")⟩

/-- Provider whose verification reports neither an error nor a user; used
only by the counterexample to claim C2. -/
def pNoUser : Provider :=
  { getUser := fun _ => .ok ⟨none, none⟩
    adminListUsersByEmail := fun _ => ⟨some [], none⟩
    adminListUsers := ⟨some [], none⟩
    signUp := fun _ _ => ⟨none, none, some "serr"⟩
    signInWithPassword := fun _ _ => ⟨none, none, some "serr"⟩ }

/-- Counterexample to claim C2 as stated: when the provider reports no
error and also no user, the middleware does not answer 401 Invalid token as
the claim requires; it attaches the null user value and calls the next
handler. -/
theorem c2_counterexample :
    (authenticateUser pNoUser (some "Bearer tok")).1 = .proceed none ∧
    (authenticateUser pNoUser (some "Bearer tok")).1 ≠
      .reject 401 "Invalid token" := by decide

/-- Claim C2 as amended: the middleware responds 401 exactly when
authentication fails and the outcomes are exhaustive and mutually exclusive,
where the token is the element at index 1 of the header split on single
space characters: absent header gives 401 No authorization header; an
absent or empty token segment gives 401 No token provided; a provider
verification that reports an error gives 401 Invalid token; an unexpected
exception gives 401 Authentication failed and never a 500; otherwise the
middleware attaches the provider-returned user value, even when that value
is null, and proceeds to the next handler. -/
theorem c2_middleware_characterization (p : Provider) :
    (authenticateUser p none = (.reject 401 "No authorization header", [])) ∧
    (∀ h, (splitSpaces h).getD 1 "" = "" →
      authenticateUser p (some h) = (.reject 401 "No token provided", [])) ∧
    (∀ h token, (splitSpaces h).getD 1 "" = token → token ≠ "" →
      (∀ e, p.getUser token = .error e →
        authenticateUser p (some h) =
          (.reject 401 "Authentication failed", [.getUser token])) ∧
      (∀ r e, p.getUser token = .ok r → r.error = some e →
        authenticateUser p (some h) =
          (.reject 401 "Invalid token", [.getUser token])) ∧
      (∀ r, p.getUser token = .ok r → r.error = none →
        authenticateUser p (some h) =
          (.proceed r.user, [.getUser token]))) ∧
    (∀ ah st msg, (authenticateUser p ah).1 = .reject st msg → st = 401) := by
  refine ⟨rfl, ?_, ?_, ?_⟩
  · intro h hh
    simp only [authenticateUser]
    rw [hh]
    simp
  · intro h token ht hne
    refine ⟨?_, ?_, ?_⟩
    · intro e he
      simp only [authenticateUser]
      rw [ht, if_neg hne, he]
    · intro r e hr hre
      simp only [authenticateUser]
      rw [ht, if_neg hne, hr]
      simp [hre]
    · intro r hr hre
      exact authenticateUser_proceed ht hne hr hre
  · intro ah st msg hr
    rcases ah with _ | h
    · simp only [authenticateUser] at hr
      exact (AuthOutcome.reject.injEq _ _ _ _ |>.mp hr.symm).1
    · simp only [authenticateUser] at hr
      split at hr
      · exact (AuthOutcome.reject.injEq _ _ _ _ |>.mp hr.symm).1
      · split at hr
        · exact (AuthOutcome.reject.injEq _ _ _ _ |>.mp hr.symm).1
        · split at hr
          · exact (AuthOutcome.reject.injEq _ _ _ _ |>.mp hr.symm).1
          · exact absurd hr (by simp)

/-- Witness for C2 as amended: a rejecting provider makes the middleware
answer 401 Invalid token on a well-formed bearer header. -/
theorem c2_witness :
    authenticateUser pRej (some "Bearer tok") =
      (.reject 401 "Invalid token", [.getUser "tok"]) :=
  ((c2_middleware_characterization pRej).2.2.1 "Bearer tok" "tok" (by decide)
    (by decide)).2.1 ⟨none, some "bad"⟩ "bad" rfl rfl

end SupabaseApp

namespace SupabaseApp

/-- Helper: a duplicate email, detected in either store, makes signup answer
400 with the duplicate message, leave the store unchanged, and stop after
the duplicate checks. -/
theorem signup_dup_400 (p : Provider) (s : Store) (email pw : String)
    (hdup : optLenPos (p.adminListUsersByEmail email).data = true ∨
      (s.findUserByEmail email).isSome) :
    (signupRoute p s email pw).1 = ⟨400, .fail dupMsg⟩ ∧
    (signupRoute p s email pw).2.1 = s ∧
    ((signupRoute p s email pw).2.2 = [.adminListUsersByEmail email] ∨
      (signupRoute p s email pw).2.2 =
        [.adminListUsersByEmail email, .findUserByEmail email]) := by
  by_cases h1 : optLenPos (p.adminListUsersByEmail email).data = true
  · simp [signupRoute, h1]
  · have h2 : (s.findUserByEmail email).isSome := by
      rcases hdup with h | h
      · exact absurd h h1
      · exact h
    obtain ⟨u0, hu0⟩ := Option.isSome_iff_exists.mp h2
    simp [signupRoute, h1, hu0]

/-- Helper: the outcome of signup is a 400 or 500 with the store unchanged,
or a 200 that appended exactly one local row carrying the submitted email. -/
theorem signupRoute_cases (p : Provider) (s : Store) (email pw : String) :
    ((signupRoute p s email pw).1.status = 400 ∧
      (signupRoute p s email pw).2.1 = s) ∨
    ((signupRoute p s email pw).1.status = 500 ∧
      (signupRoute p s email pw).2.1 = s) ∨
    (∃ uid, (signupRoute p s email pw).1.status = 200 ∧
      (signupRoute p s email pw).2.1 =
        { s with users := s.users ++ [⟨uid, email⟩] }) := by
  simp only [signupRoute]
  split
  · exact Or.inl ⟨rfl, rfl⟩
  · split
    · exact Or.inl ⟨rfl, rfl⟩
    · split
      · exact Or.inr (Or.inl ⟨rfl, rfl⟩)
      · split
        · exact Or.inr (Or.inl ⟨rfl, rfl⟩)
        · split
          · exact Or.inr (Or.inl ⟨rfl, rfl⟩)
          · next u s2 heq =>
            obtain ⟨hu, hs2⟩ := Store.createUser_ok heq
            exact Or.inr (Or.inr ⟨_, rfl, hs2⟩)

/-- Claim C3: a signup whose email matches an account of the provider
listing or an existing local row answers 400 with the duplicate message,
creates no provider account and no local row, and stops after the duplicate
checks; and after any successful signup, re-issuing a signup with the same
email fails the same way with the store unchanged. -/
theorem c3_signup_duplicate_detection :
    (∀ (p : Provider) (s : Store) (email pw : String),
      (optLenPos (p.adminListUsersByEmail email).data = true ∨
        (s.findUserByEmail email).isSome) →
      (signupRoute p s email pw).1 = ⟨400, .fail dupMsg⟩ ∧
      (signupRoute p s email pw).2.1 = s ∧
      ((signupRoute p s email pw).2.2 = [.adminListUsersByEmail email] ∨
        (signupRoute p s email pw).2.2 =
          [.adminListUsersByEmail email, .findUserByEmail email])) ∧
    (∀ (p p' : Provider) (s : Store) (email pw pw' : String),
      (signupRoute p s email pw).1.status = 200 →
      (signupRoute p' (signupRoute p s email pw).2.1 email pw').1 =
        ⟨400, .fail dupMsg⟩ ∧
      (signupRoute p' (signupRoute p s email pw).2.1 email pw').2.1 =
        (signupRoute p s email pw).2.1) := by
  refine ⟨fun p s email pw hdup => signup_dup_400 p s email pw hdup, ?_⟩
  intro p p' s email pw pw' h200
  rcases signupRoute_cases p s email pw with ⟨h, _⟩ | ⟨h, _⟩ | ⟨uid, _, hs⟩
  · rw [h200] at h
    exact absurd h (by decide)
  · rw [h200] at h
    exact absurd h (by decide)
  · have hmem : ((signupRoute p s email pw).2.1.findUserByEmail email).isSome := by
      rw [hs]
      simp only [Store.findUserByEmail]
      rw [List.find?_isSome]
      exact ⟨⟨uid, email⟩, by simp, by simp⟩
    have := signup_dup_400 p' (signupRoute p s email pw).2.1 email pw'
      (Or.inr hmem)
    exact ⟨this.1, this.2.1⟩

/-- Witness for C3: with a local row for the email already present, signup
answers 400 duplicate and changes nothing. -/
theorem c3_witness :
    (st1.findUserByEmail "a@x.com").isSome ∧
    (signupRoute pOk st1 "a@x.com" "pw").1 = ⟨400, .fail dupMsg⟩ ∧
    (signupRoute pOk st1 "a@x.com" "pw").2.1 = st1 := by
  have h := (c3_signup_duplicate_detection.1 pOk st1 "a@x.com" "pw"
    (Or.inr (by decide)))
  exact ⟨by decide, h.1, h.2.1⟩

/-- Store holding the email of uA under a different id than the provider
issues; used only by the counterexample to claim C4. -/
def stDiv : Store := ⟨[⟨"u2", "a@x.com"⟩], [], [], 0⟩

/-- Counterexample to claim C4 as stated: the provider accepts the
credentials and maps the email to id u1, no local row with id u1 exists,
yet the route neither creates the row nor answers 200: the unique email
column is already taken by the row with id u2, the store client throws on
the create, and the route answers 500 with the store unchanged. -/
theorem c4_counterexample :
    pOk.signInWithPassword "a@x.com" "pw" =
      ⟨some ⟨"u1", "a@x.com"⟩, some "sess", none⟩ ∧
    stDiv.findUserById "u1" = none ∧
    (signinRoute pOk stDiv "a@x.com" "pw").1.status = 500 ∧
    (signinRoute pOk stDiv "a@x.com" "pw").1.status ≠ 200 ∧
    (signinRoute pOk stDiv "a@x.com" "pw").2.1 = stDiv := by decide

/-- Claim C4 as amended: a signin accepted by the provider creates the
missing local row with the provider-issued id and the submitted email (the
self-healing join) and answers 200 with a user whose id is the provider id,
provided no other local row already holds the submitted email; when a
different row holds the email, the store's unique email constraint rejects
the create and the route answers 500 with no row created; when the local
row with the provider id exists already, nothing is created and the
existing row, whose id is the provider id, is returned. -/
theorem c4_signin_self_healing (p : Provider) (s : Store) (email pw : String)
    (au : AuthUser) (sess : Option String)
    (hp : p.signInWithPassword email pw = ⟨some au, sess, none⟩) :
    (s.findUserById au.id = none → s.findUserByEmail email = none →
      signinRoute p s email pw =
        (⟨200, .signinOk "User signed in successfully" sess ⟨au.id, email⟩ au⟩,
          { s with users := s.users ++ [⟨au.id, email⟩] },
          [.providerSignIn email, .findUserById au.id,
            .createUser au.id email])) ∧
    (∀ u0, s.findUserById au.id = some u0 →
      u0.id = au.id ∧
      signinRoute p s email pw =
        (⟨200, .signinOk "User signed in successfully" sess u0 au⟩, s,
          [.providerSignIn email, .findUserById au.id])) ∧
    (∀ u1, s.findUserById au.id = none → s.findUserByEmail email = some u1 →
      signinRoute p s email pw =
        (⟨500, .fail uniqueViolationMsg⟩, s,
          [.providerSignIn email, .findUserById au.id,
            .createUser au.id email])) := by
  refine ⟨?_, ?_, ?_⟩
  · intro hfind hem
    have hc := Store.createUser_free hfind hem
    simp [signinRoute, hp, hfind, hc]
  · intro u0 hfind
    have hid : u0.id = au.id := by
      simp only [Store.findUserById] at hfind
      have hbeq := List.find?_some hfind
      exact eq_of_beq hbeq
    exact ⟨hid, by simp [signinRoute, hp, hfind]⟩
  · intro u1 hfind hem
    have hc := Store.createUser_email_taken au.id hem
    simp [signinRoute, hp, hfind, hc]

/-- Witness for C4 as amended: signin against the empty store, where
neither the id nor the email is taken, creates the local row and answers
200 with the provider id. -/
theorem c4_witness :
    st0.findUserById "u1" = none ∧
    st0.findUserByEmail "a@x.com" = none ∧
    signinRoute pOk st0 "a@x.com" "pw" =
      (⟨200, .signinOk "User signed in successfully" (some "sess")
          ⟨"u1", "a@x.com"⟩ ⟨"u1", "a@x.com"⟩⟩,
        ⟨[⟨"u1", "a@x.com"⟩], [], [], 0⟩,
        [.providerSignIn "a@x.com", .findUserById "u1",
          .createUser "u1" "a@x.com"]) :=
  ⟨rfl, rfl, (c4_signin_self_healing pOk st0 "a@x.com" "pw" ⟨"u1", "a@x.com"⟩
    (some "sess") rfl).1 rfl rfl⟩

/-- Claim C5: a signin the provider rejects answers status 500, not 401,
with the failure envelope carrying the provider message, and creates no
local row. -/
theorem c5_signin_provider_failure_500 (p : Provider) (s : Store)
    (email pw : String) (u : Option AuthUser) (sess : Option String)
    (e : String) (hp : p.signInWithPassword email pw = ⟨u, sess, some e⟩) :
    signinRoute p s email pw = (⟨500, .fail e⟩, s, [.providerSignIn email]) ∧
    (signinRoute p s email pw).1.status ≠ 401 := by
  have h : signinRoute p s email pw =
      (⟨500, .fail e⟩, s, [.providerSignIn email]) := by
    simp [signinRoute, hp]
  exact ⟨h, by rw [h]; simp⟩

/-- Witness for C5: bad credentials give 500 with the provider message and
an unchanged store. -/
theorem c5_witness :
    signinRoute pRej st0 "a@x.com" "pw" =
      (⟨500, .fail "Invalid login credentials"⟩, st0,
        [.providerSignIn "a@x.com"]) ∧
    (signinRoute pRej st0 "a@x.com" "pw").1.status ≠ 401 :=
  c5_signin_provider_failure_500 pRej st0 "a@x.com" "pw" none none
    "Invalid login credentials" rfl

end SupabaseApp

namespace SupabaseApp

/-- Claim C6: on the authenticated post route, a missing or falsy title or
content (absent field or empty string) gives 400 with the store unchanged;
when both fields are present and non-empty, a Post is created whose
authorId is the authenticated caller's id, regardless of any author field
of the request body, and the response is 200 with the success envelope
carrying the post; the caller must possess a local row for the authorId
foreign key of the created Post to resolve. -/
theorem c6_post_creation (p : Provider) (s : Store) (hdr : Option String)
    (u? : Option AuthUser) (effs : List Eff)
    (hauth : authenticateUser p hdr = (.proceed u?, effs)) :
    (∀ title content author,
      (title = none ∨ title = some "" ∨ content = none ∨ content = some "") →
      postRoute p s hdr title content author =
        (⟨400, .fail "Title and content are required"⟩, s, effs)) ∧
    (∀ u t c author, u? = some u → t ≠ "" → c ≠ "" →
      (s.users.find? (fun v => v.id == u.id)).isSome →
      postRoute p s hdr (some t) (some c) author =
        (⟨200, .postOk ⟨toString s.nextId, t, c, u.id⟩⟩,
          { s with
            posts := s.posts ++ [⟨toString s.nextId, t, c, u.id⟩]
            nextId := s.nextId + 1 },
          effs ++ [.createPost t c u.id])) := by
  constructor
  · intro title content author hmiss
    rcases hmiss with rfl | rfl | rfl | rfl
    · cases content <;> simp [postRoute, protect, hauth, postHandler]
    · cases content <;> simp [postRoute, protect, hauth, postHandler]
    · cases title <;> simp [postRoute, protect, hauth, postHandler]
    · cases title <;> simp [postRoute, protect, hauth, postHandler]
  · intro u t c author hu ht hc hrow
    subst hu
    obtain ⟨v, hv⟩ := Option.isSome_iff_exists.mp hrow
    simp [postRoute, protect, hauth, postHandler, ht, hc, Store.createPost, hv]

/-- Witness for C6: an authenticated caller with a local row posts title T
and content C; the post is created with the caller as author while the
client-supplied author field is ignored. -/
theorem c6_witness :
    postRoute pOk st1 (some "Bearer t") (some "T") (some "C") (some "evil") =
      (⟨200, .postOk ⟨"0", "T", "C", "u1"⟩⟩,
        ⟨[⟨"u1", "a@x.com"⟩], [⟨"0", "T", "C", "u1"⟩], [], 1⟩,
        [.getUser "t", .createPost "T" "C" "u1"]) := by
  have h := (c6_post_creation pOk st1 (some "Bearer t") (some uA)
    [.getUser "t"] (by decide)).2 uA "T" "C" (some "evil") rfl
    (by decide) (by decide) (by decide)
  exact h

/-- Claim C7: on the authenticated comment route, a missing or falsy
content or postId gives 400 with no row created; a postId referencing no
existing Post gives 404 with the not-found envelope and no Comment row
created; otherwise the Comment is created with the caller's id as authorId
and the given postId, and is returned joined with the author email and the
post title; the caller must possess a local row for the join and the
authorId foreign key to resolve. -/
theorem c7_comment_creation (p : Provider) (s : Store) (hdr : Option String)
    (u? : Option AuthUser) (effs : List Eff)
    (hauth : authenticateUser p hdr = (.proceed u?, effs)) :
    (∀ content postId,
      (content = none ∨ content = some "" ∨ postId = none ∨
        postId = some "") →
      commentRoute p s hdr content postId =
        (⟨400, .fail "Content and postId are required"⟩, s, effs)) ∧
    (∀ c pid, c ≠ "" → pid ≠ "" → s.findPostById pid = none →
      commentRoute p s hdr (some c) (some pid) =
        (⟨404, .fail "Post not found"⟩, s, effs ++ [.findPost pid])) ∧
    (∀ u c pid po lu, u? = some u → c ≠ "" → pid ≠ "" →
      s.findPostById pid = some po →
      s.users.find? (fun v => v.id == u.id) = some lu →
      commentRoute p s hdr (some c) (some pid) =
        (⟨200, .commentOk ⟨toString s.nextId, c, u.id, pid, lu.email,
            po.title⟩⟩,
          { s with
            comments := s.comments ++ [⟨toString s.nextId, c, u.id, pid⟩]
            nextId := s.nextId + 1 },
          effs ++ [.findPost pid, .createComment c u.id pid])) := by
  refine ⟨?_, ?_, ?_⟩
  · intro content postId hmiss
    rcases hmiss with rfl | rfl | rfl | rfl
    · cases postId <;> simp [commentRoute, protect, hauth, commentHandler]
    · cases postId <;> simp [commentRoute, protect, hauth, commentHandler]
    · cases content <;> simp [commentRoute, protect, hauth, commentHandler]
    · cases content <;> simp [commentRoute, protect, hauth, commentHandler]
  · intro c pid hc hpid hfind
    simp [commentRoute, protect, hauth, commentHandler, hc, hpid, hfind]
  · intro u c pid po lu hu hc hpid hfind hlu
    subst hu
    have hfind' : s.posts.find? (fun q => q.id == pid) = some po := hfind
    simp [commentRoute, protect, hauth, commentHandler, hc, hpid, hfind,
      Store.createComment, hfind', hlu]

/-- Witness for C7: a comment aimed at an absent post answers 404 Post not
found with no row created. -/
theorem c7_witness :
    st1.findPostById "nope" = none ∧
    commentRoute pOk st1 (some "Bearer t") (some "hi") (some "nope") =
      (⟨404, .fail "Post not found"⟩, st1, [.getUser "t", .findPost "nope"]) := by
  have h := (c7_comment_creation pOk st1 (some "Bearer t") (some uA)
    [.getUser "t"] (by decide)).2.1 "hi" "nope" (by decide) (by decide)
    (by decide)
  exact ⟨by decide, h⟩

/-- Claim C8: a validly authenticated caller whose email is not on the
allow-list receives 403 from both admin routes, with the store unchanged
and the trace showing that neither the provider admin listing nor any
store query was made after token verification. -/
theorem c8_admin_forbidden (p : Provider) (s : Store) (h token : String)
    (u : AuthUser) (ht : (splitSpaces h).getD 1 "" = token)
    (hne : token ≠ "") (hg : p.getUser token = .ok ⟨some u, none⟩)
    (hna : u.email ≠ "rajakronaldo@gmail.com") :
    (adminUsersRoute p s (some h) =
      (⟨403, .fail "Unauthorized: Admin access required"⟩, s,
        [.getUser token])) ∧
    (∀ emailParam, adminUserRoute p s (some h) emailParam =
      (⟨403, .fail "Unauthorized: Admin access required"⟩, s,
        [.getUser token])) := by
  have hauth := authenticateUser_proceed ht hne hg rfl
  constructor
  · simp [adminUsersRoute, protect, hauth, adminUsersHandler, adminEmails, hna]
  · intro emailParam
    simp [adminUserRoute, protect, hauth, adminUserHandler, adminEmails, hna]

/-- Witness for C8: uA is authenticated but not allow-listed; the admin
listing route answers 403 having made only the verification call. -/
theorem c8_witness :
    adminUsersRoute pOk st1 (some "Bearer t") =
      (⟨403, .fail "Unauthorized: Admin access required"⟩, st1,
        [.getUser "t"]) :=
  (c8_admin_forbidden pOk st1 "Bearer t" "t" uA (by decide) (by decide)
    rfl (by decide)).1

/-- Claim C9: for an allow-listed caller, the admin user-by-email route
answers 200 with the first matching provider account or null, the local
user joined with their posts and comments, and an activity object whose
counts are the lengths of those lists, null when no local user matches. -/
theorem c9_admin_user_detail (p : Provider) (s : Store)
    (h token emailParam : String) (u : AuthUser) (l : List AuthUser)
    (ht : (splitSpaces h).getD 1 "" = token) (hne : token ≠ "")
    (hg : p.getUser token = .ok ⟨some u, none⟩)
    (ha : u.email = "rajakronaldo@gmail.com")
    (hl : p.adminListUsersByEmail emailParam = ⟨some l, none⟩) :
    adminUserRoute p s (some h) emailParam =
      (⟨200, .adminUserOk l.head?
          ((s.findUserByEmail emailParam).map (fun pu =>
            UserWithRel.mk pu
              (s.posts.filter (fun po => po.authorId == pu.id))
              (s.comments.filter (fun c => c.authorId == pu.id))))
          (((s.findUserByEmail emailParam).map (fun pu =>
            UserWithRel.mk pu
              (s.posts.filter (fun po => po.authorId == pu.id))
              (s.comments.filter (fun c => c.authorId == pu.id)))).map
            (fun w => ⟨w.posts.length, w.comments.length⟩))⟩,
        s, [.getUser token, .adminListUsersByEmail emailParam,
          .findUserByEmail emailParam]) := by
  have hauth := authenticateUser_proceed ht hne hg rfl
  simp [adminUserRoute, protect, hauth, adminUserHandler, adminEmails, ha, hl]

/-- Witness for C9: the admin inspects uA, who has one post and no
comment; the response carries the provider account, the joined local user
and the derived counts one and zero. -/
theorem c9_witness :
    adminUserRoute pAdm st2 (some "Bearer t") "a@x.com" =
      (⟨200, .adminUserOk (some uA)
          (some ⟨⟨"u1", "a@x.com"⟩, [⟨"p1", "T1", "C1", "u1"⟩], []⟩)
          (some ⟨1, 0⟩)⟩,
        st2, [.getUser "t", .adminListUsersByEmail "a@x.com",
          .findUserByEmail "a@x.com"]) := by
  have h := c9_admin_user_detail pAdm st2 "Bearer t" "t" "a@x.com"
    ⟨"adm", "rajakronaldo@gmail.com"⟩ [uA] (by decide) (by decide) rfl rfl rfl
  exact h

/-- Claim C10: for an allow-listed caller asking about an email matching no
account in either store, with the downstream calls succeeding, the route
answers 200 with the success envelope, null prismaUser and null
userActivity; it does not answer 404. -/
theorem c10_admin_user_missing_is_200 (p : Provider) (s : Store)
    (h token emailParam : String) (u : AuthUser)
    (ht : (splitSpaces h).getD 1 "" = token) (hne : token ≠ "")
    (hg : p.getUser token = .ok ⟨some u, none⟩)
    (ha : u.email = "rajakronaldo@gmail.com")
    (hl : p.adminListUsersByEmail emailParam = ⟨some [], none⟩)
    (hs : s.findUserByEmail emailParam = none) :
    adminUserRoute p s (some h) emailParam =
      (⟨200, .adminUserOk none none none⟩, s,
        [.getUser token, .adminListUsersByEmail emailParam,
          .findUserByEmail emailParam]) ∧
    (adminUserRoute p s (some h) emailParam).1.status ≠ 404 := by
  have hauth := authenticateUser_proceed ht hne hg rfl
  have hmain : adminUserRoute p s (some h) emailParam =
      (⟨200, .adminUserOk none none none⟩, s,
        [.getUser token, .adminListUsersByEmail emailParam,
          .findUserByEmail emailParam]) := by
    simp [adminUserRoute, protect, hauth, adminUserHandler, adminEmails,
      ha, hl, hs]
  exact ⟨hmain, by rw [hmain]; simp⟩

/-- Witness for C10: asking about an email unknown to both stores answers
200 with null prismaUser and null userActivity, not 404. -/
theorem c10_witness :
    adminUserRoute pAdmEmpty st0 (some "Bearer t") "ghost@x.com" =
      (⟨200, .adminUserOk none none none⟩, st0,
        [.getUser "t", .adminListUsersByEmail "ghost@x.com",
          .findUserByEmail "ghost@x.com"]) ∧
    (adminUserRoute pAdmEmpty st0 (some "Bearer t") "ghost@x.com").1.status ≠
      404 :=
  c10_admin_user_missing_is_200 pAdmEmpty st0 "Bearer t" "t" "ghost@x.com"
    ⟨"adm", "rajakronaldo@gmail.com"⟩ (by decide) (by decide) rfl rfl rfl rfl

end SupabaseApp
